import Mathlib

/-!
Shallow embedding of the e-commerce chat backend
(`src/domain/entities.py`, `src/application/chat_service.py`,
`src/infrastructure/repositories/chat_repository.py`,
`src/infrastructure/repositories/product_repository.py`)
together with proofs about the claimed properties of that code.

Conventions of the embedding:
* Python `int` is `Int`; `float` prices are `ℚ` (only order comparisons occur);
  `datetime` timestamps are `Nat` (only ordering matters).
* Python truthiness tests (`if entity.id:`, `if limit:`, `if not s:`) are
  modelled explicitly where the source relies on them.
* A raised Python exception is an `Except.error`; stateful methods are
  state-passing functions returning the new store state, and a method that can
  raise after partial effects returns the state reached at the raise point
  (commits in the source are durable, so state survives an exception).
-/

namespace ECommerce

/-- Python exception values, by class; the payload is `str(e)`. -/
inductive PyError where
  | valueError (msg : String)
  | chatServiceError (msg : String)
  | invalidRequestError (msg : String)
  | integrityError (msg : String)
deriving DecidableEq, Repr

/-- `str(e)` of an exception. -/
def PyError.text : PyError → String
  | .valueError m => m
  | .chatServiceError m => m
  | .invalidRequestError m => m
  | .integrityError m => m

/-- Python blank test `not s or not s.strip()`: true iff every character of
`s` is whitespace (in particular for the empty string).  Python `str.strip()`
with no argument strips whitespace, so the test succeeds exactly on
all-whitespace strings.  (`String.trim` is avoided because its substring
primitives do not reduce in the kernel.) -/
def isBlank (s : String) : Bool := s.toList.all (fun c => c.isWhitespace)

/-- `src/domain/entities.py` `Product` dataclass (fields only; the
`__post_init__` validation is `Product.make`). -/
structure Product where
  id : Option Int
  name : String
  brand : String
  category : String
  size : String
  color : String
  price : ℚ
  stock : Int
  description : String
deriving DecidableEq, Repr

/-- `Product(...)` construction: the dataclass runs `__post_init__`, which
raises `ValueError` on blank name, non-positive price or negative stock
(checked in that order) before the object is ever returned. -/
def Product.make (id : Option Int) (name brand category size color : String)
    (price : ℚ) (stock : Int) (description : String) : Except PyError Product :=
  if isBlank name then
    Except.error (PyError.valueError "El nombre del producto no puede estar vacío.")
  else if price ≤ 0 then
    Except.error (PyError.valueError "El precio debe ser mayor a 0.")
  else if stock < 0 then
    Except.error (PyError.valueError "El stock no puede ser negativo.")
  else
    Except.ok ⟨id, name, brand, category, size, color, price, stock, description⟩

/-- `Product.reduce_stock`: raises before mutating, so the returned product is
unchanged on every error path. -/
def Product.reduce_stock (p : Product) (quantity : Int) :
    Except PyError Unit × Product :=
  if quantity ≤ 0 then
    (Except.error (PyError.valueError "La cantidad a reducir debe ser positiva."), p)
  else if p.stock < quantity then
    (Except.error (PyError.valueError "Stock insuficiente."), p)
  else
    (Except.ok (), { p with stock := p.stock - quantity })

/-- `src/domain/entities.py` `ChatMessage` dataclass (fields only). -/
structure ChatMessage where
  id : Option Int
  session_id : String
  role : String
  message : String
  timestamp : Nat
deriving DecidableEq, Repr

/-- `ChatMessage(...)` construction: `__post_init__` validates, in order,
non-blank `session_id`, role in the two-value enum, non-blank `message`. -/
def ChatMessage.make (id : Option Int) (session_id role message : String)
    (timestamp : Nat) : Except PyError ChatMessage :=
  if isBlank session_id then
    Except.error (PyError.valueError "El session_id no puede estar vacío.")
  else if ¬ (role = "user" ∨ role = "assistant") then
    Except.error (PyError.valueError "El rol debe ser user o assistant.")
  else if isBlank message then
    Except.error (PyError.valueError "El mensaje no puede estar vacío.")
  else
    Except.ok ⟨id, session_id, role, message, timestamp⟩

/-- `ChatMessage.is_from_user`. -/
def ChatMessage.is_from_user (m : ChatMessage) : Bool := m.role == "user"

/-- `src/domain/entities.py` `ChatContext` value object. -/
structure ChatContext where
  messages : List ChatMessage
  max_messages : Int := 6
deriving DecidableEq, Repr

/-- Python list slice `l[start:]` (one-argument suffix slice), including the
negative-index convention: a negative `start` counts from the end, clamped at
the front; a non-negative `start` drops that many elements. -/
def pySliceFrom {α : Type} (l : List α) (start : Int) : List α :=
  if start < 0 then l.drop (l.length - (-start).toNat)
  else l.drop start.toNat

/-- `ChatContext.get_recent_messages`: `self.messages[-self.max_messages:]`. -/
def ChatContext.get_recent_messages (ctx : ChatContext) : List ChatMessage :=
  pySliceFrom ctx.messages (-ctx.max_messages)

/-- `ChatContext.format_for_prompt`: per recent message a line
`"Usuario: …"` / `"Asistente: …"` (the source picks `"Usuario"` exactly when
`is_from_user()`), joined by `"\n".join`. -/
def ChatContext.format_for_prompt (ctx : ChatContext) : String :=
  String.intercalate "\n"
    (ctx.get_recent_messages.map
      (fun msg =>
        (if msg.is_from_user then "Usuario" else "Asistente") ++ ": " ++ msg.message))

/-- Rendering contract as worded by the spec (§4.3): role label mapped
`{user → "Usuario", assistant → "Asistente"}` (other roles are outside the
mapping; this function leaves them as-is to keep the mapping partial),
newline-joined with no trailing newline. -/
def specRender (msgs : List ChatMessage) : String :=
  String.intercalate "\n"
    (msgs.map (fun msg =>
      (if msg.role = "user" then "Usuario"
       else if msg.role = "assistant" then "Asistente"
       else msg.role) ++ ": " ++ msg.message))

/-- `ORDER BY timestamp DESC` comparison: `a` may precede `b` iff `b`'s
timestamp is no later. -/
def tsDesc (a b : ChatMessage) : Prop := b.timestamp ≤ a.timestamp

instance : DecidableRel tsDesc := fun a b => Nat.decLe b.timestamp a.timestamp

instance : IsTotal ChatMessage tsDesc :=
  ⟨fun a b => Nat.le_total b.timestamp a.timestamp⟩

instance : IsTrans ChatMessage tsDesc :=
  ⟨fun _ _ _ h1 h2 => Nat.le_trans h2 h1⟩

/-- `ORDER BY timestamp ASC` comparison. -/
def tsAsc (a b : ChatMessage) : Prop := a.timestamp ≤ b.timestamp

instance : DecidableRel tsAsc := fun a b => Nat.decLe a.timestamp b.timestamp

/-- Strictly-later-timestamp relation, used to state that a descending sort is
unique when all timestamps are distinct. -/
def tsAfter (a b : ChatMessage) : Prop := b.timestamp < a.timestamp

instance : IsAntisymm ChatMessage tsAfter :=
  ⟨fun _ _ h1 h2 => absurd (Nat.lt_trans h1 h2) (Nat.lt_irrefl _)⟩

/-- The `chat_memory` table (`SQLChatRepository`): its rows plus the
autoincrement counter for the integer primary key. -/
structure ChatDB where
  rows : List ChatMessage
  nextId : Int
deriving DecidableEq, Repr

/-- The rows of one session, `filter(ChatMemoryModel.session_id == session_id)`. -/
def ChatDB.sessionRows (db : ChatDB) (session_id : String) : List ChatMessage :=
  db.rows.filter (fun m => m.session_id == session_id)

/-- `SQLChatRepository.save_message`: adds the row, commits, and the refresh
populates the autoincrement id; returns the stored message. -/
def ChatDB.save_message (db : ChatDB) (message : ChatMessage) : ChatMessage × ChatDB :=
  (⟨{ message with id := some db.nextId }, db.rows ++ [{ message with id := some db.nextId }], db.nextId + 1⟩ :
    ChatMessage × ChatDB)

/-- `SQLChatRepository.get_recent_messages`: filter the session, `ORDER BY
timestamp DESC` (modelled as an insertion sort by `tsDesc`; the SQL result is
this sort whenever the timestamps are distinct), `LIMIT count`, then reverse
back into chronological order. -/
def ChatDB.get_recent_messages (db : ChatDB) (session_id : String) (count : Nat) :
    List ChatMessage :=
  ((List.insertionSort tsDesc (db.sessionRows session_id)).take count).reverse

/-- `SQLChatRepository.get_session_history`: filter the session, `ORDER BY
timestamp ASC`; the Python guard `if limit:` caps the result only when `limit`
is neither `None` nor `0`. -/
def ChatDB.get_session_history (db : ChatDB) (session_id : String)
    (limit : Option Nat) : List ChatMessage :=
  match limit with
  | some n =>
      if n ≠ 0 then (List.insertionSort tsAsc (db.sessionRows session_id)).take n
      else List.insertionSort tsAsc (db.sessionRows session_id)
  | none => List.insertionSort tsAsc (db.sessionRows session_id)

/-- `SQLChatRepository.delete_session_history`: bulk `DELETE` of the session's
rows; the returned count is the number of rows that matched. -/
def ChatDB.delete_session_history (db : ChatDB) (session_id : String) :
    Nat × ChatDB :=
  ((db.sessionRows session_id).length,
   ⟨db.rows.filter (fun m => !(m.session_id == session_id)), db.nextId⟩)

/-- The `products` table (`SQLProductRepository`): stored rows always carry a
primary key. -/
structure ProductRow where
  id : Int
  name : String
  brand : String
  category : String
  size : String
  color : String
  price : ℚ
  stock : Int
  description : String
deriving DecidableEq, Repr

/-- Product store state: rows plus the autoincrement counter. -/
structure ProductDB where
  rows : List ProductRow
  nextId : Int
deriving DecidableEq, Repr

/-- Python truthiness of `entity.id` in `if entity.id:` — `None` and `0` are
both falsy. -/
def truthyId : Option Int → Bool
  | none => false
  | some i => i != 0

/-- The row written for an entity (the field copies performed by
`_entity_to_model`, with `i` the key the row ends up carrying). -/
def writeRow (i : Int) (p : Product) : ProductRow :=
  ⟨i, p.name, p.brand, p.category, p.size, p.color, p.price, p.stock, p.description⟩

/-- `SQLProductRepository._model_to_entity`: constructs `Product(...)`, which
re-runs the dataclass validation. -/
def model_to_entity (r : ProductRow) : Except PyError Product :=
  Product.make (some r.id) r.name r.brand r.category r.size r.color r.price
    r.stock r.description

/-- `SQLProductRepository.save` together with the `_entity_to_model` it calls:
* `if entity.id:` (truthy, i.e. non-`None` and nonzero) and a matching row
  exists — the persistent model's fields are overwritten in place; it is not
  re-added (`if not model.id:` is false); commit + refresh succeed.
* truthy id but no matching row — `_entity_to_model` builds a fresh
  `ProductModel` that is never added to the session, so `db.refresh(model)`
  raises `InvalidRequestError`.
* `id is None` — inserted, the autoincrement assigns the next key.
* `id == 0` (present but falsy) — treated like a new model but the explicit
  key `0` is written; a duplicate key raises `IntegrityError` at commit. -/
def ProductDB.save (db : ProductDB) (product : Product) :
    Except PyError (Product × ProductDB) :=
  if truthyId product.id then
    if (db.rows.find? (fun r => r.id == product.id.getD 0)).isSome then
      match model_to_entity (writeRow (product.id.getD 0) product) with
      | Except.error e => Except.error e
      | Except.ok entity =>
          Except.ok (entity,
            ⟨db.rows.map (fun r =>
               if r.id == product.id.getD 0 then writeRow (product.id.getD 0) product else r),
             db.nextId⟩)
    else
      Except.error (PyError.invalidRequestError
        "Instance is not persistent within this Session")
  else
    match product.id with
    | none =>
        match model_to_entity (writeRow db.nextId product) with
        | Except.error e => Except.error e
        | Except.ok entity =>
            Except.ok (entity, ⟨db.rows ++ [writeRow db.nextId product], db.nextId + 1⟩)
    | some i =>
        if db.rows.any (fun r => r.id == i) then
          Except.error (PyError.integrityError "UNIQUE constraint failed: products.id")
        else
          match model_to_entity (writeRow i product) with
          | Except.error e => Except.error e
          | Except.ok entity =>
              Except.ok (entity, ⟨db.rows ++ [writeRow i product], db.nextId⟩)

/-- `ChatMessageRequestDTO` as seen by the service: the two inbound fields. -/
structure ChatMessageRequest where
  session_id : String
  message : String
deriving DecidableEq, Repr

/-- `ChatMessageResponseDTO`. -/
structure ChatMessageResponse where
  session_id : String
  user_message : String
  assistant_message : String
  timestamp : Nat
deriving DecidableEq, Repr

/-- The `IAIService.generate_response` boundary: opaque text generation that
may raise. -/
def Gen : Type := String → List Product → ChatContext → Except PyError String

/-- `ChatService.process_message`.  The whole body runs under one
`try/except Exception` that re-raises every failure as
`ChatServiceError("Error procesando el mensaje: " + str(e))`.  Steps:
build + persist the user turn, gather the product list and the six most
recent messages (the product fetch is the `products` argument), build the
`ChatContext` (default window 6), call the generator, persist the assistant
turn, compose the response from the in-memory entities (the source drops the
value returned by the second `save_message`).  Commits are durable, so the
state reached before a raise is the state returned alongside the error. -/
def process_message (db : ChatDB) (products : List Product) (gen : Gen)
    (request : ChatMessageRequest) (tsUser tsAssistant : Nat) :
    Except PyError ChatMessageResponse × ChatDB :=
  match ChatMessage.make none request.session_id "user" request.message tsUser with
  | Except.error e =>
      (Except.error (PyError.chatServiceError
         ("Error procesando el mensaje: " ++ e.text)), db)
  | Except.ok user_message =>
      let db1 := (db.save_message user_message).2
      let recent_history := db1.get_recent_messages request.session_id 6
      match gen request.message products { messages := recent_history } with
      | Except.error e =>
          (Except.error (PyError.chatServiceError
             ("Error procesando el mensaje: " ++ e.text)), db1)
      | Except.ok assistant_text =>
          match ChatMessage.make none request.session_id "assistant" assistant_text
              tsAssistant with
          | Except.error e =>
              (Except.error (PyError.chatServiceError
                 ("Error procesando el mensaje: " ++ e.text)), db1)
          | Except.ok assistant_message =>
              (Except.ok
                 { session_id := request.session_id,
                   user_message := user_message.message,
                   assistant_message := assistant_message.message,
                   timestamp := assistant_message.timestamp },
               (db1.save_message assistant_message).2)

/-- Ten messages with ids `0..9` (the transcript of spec §8's window example). -/
def msgs10 : List ChatMessage :=
  (List.range 10).map (fun i => ⟨some (Int.ofNat i), "s1", "user", "Msg", i⟩)

/-- The three-message conversation of spec §8's rendering example. -/
def exMsgs : List ChatMessage :=
  [⟨some 1, "s1", "user", "Hola, busco zapatos.", 0⟩,
   ⟨some 2, "s1", "assistant", "¡Hola! ¿Qué tipo de zapatos buscas?", 1⟩,
   ⟨some 3, "s1", "user", "Para correr.", 2⟩]

/-- A sample valid product entity. -/
def pNike : Product :=
  ⟨some 1, "Nike Air", "Nike", "Running", "42", "Black", 120, 10, "Running shoes"⟩

/-- A full-field update of `pNike` keyed by the same identity. -/
def pNikeMax : Product :=
  ⟨some 1, "Nike Air Max", "Nike", "Lifestyle", "42", "Black", 130, 8, "Updated shoes"⟩

/-- A new product entity without identity. -/
def pAdidas : Product :=
  ⟨none, "Adidas Ultraboost", "Adidas", "Running", "43", "White", 150, 5, "Comfortable shoes"⟩

/-- A one-row product store holding `pNike` under key 1. -/
def db8 : ProductDB := ⟨[writeRow 1 pNike], 2⟩

/- ------------------------------------------------------------------ -/
/- Theorems.                                                          -/
/- ------------------------------------------------------------------ -/

/-- A descending sort of a strictly-ascending list is its reverse (the SQL
`ORDER BY timestamp DESC` result is unique when timestamps are distinct). -/
theorem insertionSort_desc_eq_reverse (l : List ChatMessage)
    (h : l.Pairwise (fun a b => a.timestamp < b.timestamp)) :
    List.insertionSort tsDesc l = l.reverse := by
  apply List.eq_of_perm_of_sorted (r := tsAfter)
  · exact (List.perm_insertionSort tsDesc l).trans l.reverse_perm.symm
  · have hs : List.Sorted tsDesc (List.insertionSort tsDesc l) :=
      List.sorted_insertionSort tsDesc l
    have hne : (List.insertionSort tsDesc l).Pairwise
        (fun a b => a.timestamp ≠ b.timestamp) := by
      refine ((List.perm_insertionSort tsDesc l).pairwise_iff ?_).mpr
        (h.imp fun hlt => Nat.ne_of_lt hlt)
      exact fun hxy => hxy.symm
    refine (hs.and hne).imp ?_
    intro a b hab
    exact Nat.lt_of_le_of_ne hab.1 (fun hba => hab.2 hba.symm)
  · exact List.pairwise_reverse.mpr (h.imp fun hlt => hlt)

/-- Python `l[-m:]` for a positive `m` is the drop of all but the last `m`. -/
theorem pySliceFrom_neg {α : Type} (l : List α) (m : Int) (hm : 1 ≤ m) :
    pySliceFrom l (-m) = l.drop (l.length - m.toNat) := by
  unfold pySliceFrom
  rw [if_pos (by omega : -m < 0), Int.neg_neg]

/-- Elements of a Python suffix slice come from the sliced list. -/
theorem pySliceFrom_subset {α : Type} (l : List α) (i : Int) :
    ∀ x ∈ pySliceFrom l i, x ∈ l := by
  unfold pySliceFrom
  split
  · exact fun x hx => List.drop_subset _ _ hx
  · exact fun x hx => List.drop_subset _ _ hx

/-- A valid user turn passes `ChatMessage` construction unchanged. -/
theorem make_user_ok (sid msg : String) (t : Nat)
    (hsid : isBlank sid = false) (hmsg : isBlank msg = false) :
    ChatMessage.make none sid "user" msg t = Except.ok ⟨none, sid, "user", msg, t⟩ := by
  unfold ChatMessage.make
  rw [hsid, hmsg]
  simp

/-- A blank `session_id` or blank `message` makes `ChatMessage` construction
of the user turn raise a `ValueError`. -/
theorem make_user_blank (sid msg : String) (t : Nat)
    (h : isBlank sid = true ∨ isBlank msg = true) :
    ∃ s, ChatMessage.make none sid "user" msg t
        = Except.error (PyError.valueError s) := by
  unfold ChatMessage.make
  by_cases hsid : isBlank sid = true
  · rw [hsid]
    exact ⟨"El session_id no puede estar vacío.", by simp⟩
  · have hsid' : isBlank sid = false := by
      cases hx : isBlank sid
      · rfl
      · exact absurd hx hsid
    have hmsg : isBlank msg = true := by
      rcases h with h | h
      · exact absurd h hsid
      · exact h
    rw [hsid', hmsg]
    exact ⟨"El mensaje no puede estar vacío.", by simp⟩

/-- Reading back a row whose fields came from a valid product entity succeeds
and yields the entity with the row's key as identity. -/
theorem model_to_entity_writeRow (i : Int) (p : Product)
    (hname : isBlank p.name = false) (hprice : 0 < p.price) (hstock : 0 ≤ p.stock) :
    model_to_entity (writeRow i p) = Except.ok { p with id := some i } := by
  show Product.make (some i) p.name p.brand p.category p.size p.color p.price
      p.stock p.description = Except.ok { p with id := some i }
  unfold Product.make
  rw [hname]
  rw [if_neg (by simp), if_neg (not_le.mpr hprice), if_neg (not_lt.mpr hstock)]

/-- C4: for every `ChatContext` with a positive window, `get_recent_messages`
is the suffix of the message sequence truncated to at most `max_messages`
elements, in order (a suffix of the chronological sequence), and when fewer
than `max_messages` messages exist it returns all of them.  (The universally
quantified claim fails at `max_messages = 0`, see the counterexample; this is
the claim restricted to positive windows.) -/
theorem C4_recent_window_is_bounded_suffix (ctx : ChatContext)
    (hpos : 1 ≤ ctx.max_messages) :
    ctx.get_recent_messages
        = ctx.messages.drop (ctx.messages.length - ctx.max_messages.toNat)
    ∧ ctx.get_recent_messages.length ≤ ctx.max_messages.toNat
    ∧ ctx.get_recent_messages <:+ ctx.messages
    ∧ (ctx.messages.length ≤ ctx.max_messages.toNat →
        ctx.get_recent_messages = ctx.messages) := by
  have hdrop : ctx.get_recent_messages
      = ctx.messages.drop (ctx.messages.length - ctx.max_messages.toNat) := by
    unfold ChatContext.get_recent_messages
    exact pySliceFrom_neg _ _ hpos
  refine ⟨hdrop, ?_, ?_, ?_⟩
  · rw [hdrop, List.length_drop]; omega
  · rw [hdrop]; exact List.drop_suffix _ _
  · intro hle
    rw [hdrop, show ctx.messages.length - ctx.max_messages.toNat = 0 by omega,
      List.drop_zero]

/-- C4 counterexample: with `max_messages = 0` the slice `messages[-0:]` is
the whole list, so the window is *not* "truncated to at most `max_messages`
elements" — one message comes back where the claim allows none. -/
theorem C4_counterexample :
    (ChatContext.mk [⟨some 0, "s1", "user", "Hola", 0⟩] 0).get_recent_messages
        = [⟨some 0, "s1", "user", "Hola", 0⟩]
    ∧ ¬ ((ChatContext.mk [⟨some 0, "s1", "user", "Hola", 0⟩] 0).get_recent_messages.length
          ≤ (ChatContext.mk [⟨some 0, "s1", "user", "Hola", 0⟩] 0).max_messages.toNat) := by
  decide

/-- C4 witness: the spec's concrete instance — ten messages ids `0..9`,
window 5, yields ids `[5, 6, 7, 8, 9]` in order. -/
theorem C4_witness :
    (ChatContext.mk msgs10 5).get_recent_messages
        = msgs10.drop (msgs10.length - (5:Int).toNat)
    ∧ (ChatContext.mk msgs10 5).get_recent_messages.map (fun m => m.id)
        = [some 5, some 6, some 7, some 8, some 9] := by
  have h := C4_recent_window_is_bounded_suffix (ChatContext.mk msgs10 5) (by decide)
  exact ⟨h.1, by rw [h.1]; decide⟩

/-- C10: a `ChatContext` with `max_messages = 0` returns the entire message
sequence from `get_recent_messages` (the negative-slice computation treats a
zero window as unbounded), and `format_for_prompt` hence renders every
message. -/
theorem C10_zero_window_returns_all (msgs : List ChatMessage) (_hne : msgs ≠ []) :
    (ChatContext.mk msgs 0).get_recent_messages = msgs
    ∧ (ChatContext.mk msgs 0).format_for_prompt
        = String.intercalate "\n"
            (msgs.map (fun msg =>
              (if msg.is_from_user then "Usuario" else "Asistente") ++ ": "
                ++ msg.message)) := by
  have h1 : (ChatContext.mk msgs 0).get_recent_messages = msgs := by
    unfold ChatContext.get_recent_messages pySliceFrom
    simp
  exact ⟨h1, by unfold ChatContext.format_for_prompt; rw [h1]⟩

/-- C10 witness: a singleton transcript with window 0 comes back whole. -/
theorem C10_witness :
    ([(⟨some 1, "s1", "user", "Hola", 0⟩ : ChatMessage)] ≠ [])
    ∧ (ChatContext.mk [⟨some 1, "s1", "user", "Hola", 0⟩] 0).get_recent_messages
        = [⟨some 1, "s1", "user", "Hola", 0⟩] :=
  ⟨by decide, (C10_zero_window_returns_all _ (by decide)).1⟩

/-- C5: for every `ChatContext` whose messages carry the two valid roles,
`format_for_prompt` renders the recent-window messages as lines
`"<RoleLabel>: <text>"` with the role label mapped `{user → "Usuario",
assistant → "Asistente"}`, newline-joined with no trailing newline
(`specRender` is the spec's wording of that format), and the empty message
sequence renders as the empty string. -/
theorem C5_format_for_prompt_renders_window (ctx : ChatContext)
    (hroles : ∀ m ∈ ctx.messages, m.role = "user" ∨ m.role = "assistant") :
    ctx.format_for_prompt = specRender ctx.get_recent_messages
    ∧ (ctx.messages = [] → ctx.format_for_prompt = "") := by
  constructor
  · unfold ChatContext.format_for_prompt specRender
    congr 1
    apply List.map_congr_left
    intro m hm
    have hrole := hroles m (pySliceFrom_subset ctx.messages (-ctx.max_messages) m hm)
    rcases hrole with h | h
    · simp [ChatMessage.is_from_user, h]
    · simp [ChatMessage.is_from_user, h]
  · intro hnil
    unfold ChatContext.format_for_prompt ChatContext.get_recent_messages
    rw [hnil]
    rw [show pySliceFrom ([] : List ChatMessage) (-ctx.max_messages) = [] from by
      unfold pySliceFrom
      split <;> exact List.drop_nil]
    rfl

/-- C5 witness: the three-message conversation of spec §8 renders to the
exact expected prompt text. -/
theorem C5_witness :
    (ChatContext.mk exMsgs 6).format_for_prompt
        = specRender (ChatContext.mk exMsgs 6).get_recent_messages
    ∧ (ChatContext.mk exMsgs 6).format_for_prompt
        = "Usuario: Hola, busco zapatos.\nAsistente: ¡Hola! ¿Qué tipo de zapatos buscas?\nUsuario: Para correr." := by
  refine ⟨(C5_format_for_prompt_renders_window (ChatContext.mk exMsgs 6) (by decide)).1, ?_⟩
  decide

/-- C6: `reduce_stock(q)` on a product with stock `s` succeeds exactly when
`0 < q ≤ s`; on success the stock becomes `s - q`, on failure the product is
unchanged (the `ValueError` is raised before any mutation). -/
theorem C6_reduce_stock_iff (p : Product) (q : Int) :
    ((p.reduce_stock q).1.isOk = true ↔ (0 < q ∧ q ≤ p.stock))
    ∧ (p.reduce_stock q).2
        = (if 0 < q ∧ q ≤ p.stock then { p with stock := p.stock - q } else p) := by
  unfold Product.reduce_stock
  by_cases h1 : q ≤ 0
  · rw [if_pos h1, if_neg (by omega : ¬ (0 < q ∧ q ≤ p.stock))]
    refine ⟨?_, rfl⟩
    simp [Except.isOk, Except.toBool]
    omega
  · by_cases h2 : p.stock < q
    · rw [if_neg h1, if_pos h2, if_neg (by omega : ¬ (0 < q ∧ q ≤ p.stock))]
      refine ⟨?_, rfl⟩
      simp [Except.isOk, Except.toBool]
      omega
    · rw [if_neg h1, if_neg h2, if_pos (by omega : 0 < q ∧ q ≤ p.stock)]
      refine ⟨?_, rfl⟩
      simp [Except.isOk, Except.toBool]
      omega

/-- C6 witness: reducing a stock of 10 by 3 succeeds and leaves 7. -/
theorem C6_witness :
    ((pNike.reduce_stock 3).1.isOk = true ↔ (0 < (3:Int) ∧ 3 ≤ pNike.stock))
    ∧ (pNike.reduce_stock 3).2
        = (if 0 < (3:Int) ∧ (3:Int) ≤ pNike.stock
           then { pNike with stock := pNike.stock - 3 } else pNike) :=
  C6_reduce_stock_iff pNike 3

/-- C7: `Product` construction succeeds iff the name is non-blank, the price
positive and the stock non-negative; each violation raises its corresponding
`ValueError` at construction (no store is involved in `Product.make`). -/
theorem C7_product_construction_validation (id : Option Int)
    (name brand category size color : String) (price : ℚ) (stock : Int)
    (description : String) :
    ((Product.make id name brand category size color price stock description).isOk
        = true ↔ (isBlank name = false ∧ 0 < price ∧ 0 ≤ stock))
    ∧ (isBlank name = true →
        Product.make id name brand category size color price stock description
          = Except.error (PyError.valueError "El nombre del producto no puede estar vacío."))
    ∧ (isBlank name = false → price ≤ 0 →
        Product.make id name brand category size color price stock description
          = Except.error (PyError.valueError "El precio debe ser mayor a 0."))
    ∧ (isBlank name = false → 0 < price → stock < 0 →
        Product.make id name brand category size color price stock description
          = Except.error (PyError.valueError "El stock no puede ser negativo.")) := by
  unfold Product.make
  refine ⟨?_, ?_, ?_, ?_⟩
  · cases hname : isBlank name
    · by_cases hp : price ≤ 0
      · rw [if_neg (by simp), if_pos hp]
        simp [Except.isOk, Except.toBool]
        intro h
        exact absurd hp (not_le.mpr h)
      · by_cases hs : stock < 0
        · rw [if_neg (by simp), if_neg hp, if_pos hs]
          simp [Except.isOk, Except.toBool]
          intro _
          omega
        · rw [if_neg (by simp), if_neg hp, if_neg hs]
          simp [Except.isOk, Except.toBool]
          exact ⟨not_le.mp hp, by omega⟩
    · rw [if_pos (by simp)]
      simp [Except.isOk, Except.toBool]
  · intro hname
    rw [hname, if_pos rfl]
  · intro hname hp
    rw [hname, if_neg (by simp), if_pos hp]
  · intro hname hp hs
    rw [hname, if_neg (by simp), if_neg (not_le.mpr hp), if_pos hs]

/-- C7 witness: a blank name fails with the name error; the valid sample
input constructs successfully. -/
theorem C7_witness :
    Product.make (some 1) "" "Nike" "Running" "42" "Black" 120 10 "x"
        = Except.error (PyError.valueError "El nombre del producto no puede estar vacío.")
    ∧ (Product.make (some 1) "Nike Air" "Nike" "Running" "42" "Black" 120 10 "x").isOk
        = true := by
  constructor
  · exact (C7_product_construction_validation (some 1) "" "Nike" "Running" "42"
      "Black" 120 10 "x").2.1 (by decide)
  · exact (C7_product_construction_validation (some 1) "Nike Air" "Nike" "Running"
      "42" "Black" 120 10 "x").1.mpr ⟨by decide, by decide, by decide⟩

/-- C2: for every session transcript whose rows are chronologically ordered
(strictly increasing timestamps) and every count, `get_recent_messages`
equals "take the newest `count`, then reverse", equals the chronological
suffix of at most `count` messages, has length at most `count`, and is in
chronological ascending order. -/
theorem C2_read_recent_window (db : ChatDB) (session_id : String) (count : Nat)
    (hchron : (db.sessionRows session_id).Pairwise
        (fun a b => a.timestamp < b.timestamp)) :
    db.get_recent_messages session_id count
        = ((db.sessionRows session_id).reverse.take count).reverse
    ∧ db.get_recent_messages session_id count
        = (db.sessionRows session_id).drop
            ((db.sessionRows session_id).length - count)
    ∧ (db.get_recent_messages session_id count).length ≤ count
    ∧ (db.get_recent_messages session_id count).Pairwise
        (fun a b => a.timestamp < b.timestamp) := by
  have h1 : db.get_recent_messages session_id count
      = ((db.sessionRows session_id).reverse.take count).reverse := by
    unfold ChatDB.get_recent_messages
    rw [insertionSort_desc_eq_reverse _ hchron]
  have h2 : db.get_recent_messages session_id count
      = (db.sessionRows session_id).drop
          ((db.sessionRows session_id).length - count) := by
    rw [h1, List.take_reverse, List.reverse_reverse]
  refine ⟨h1, h2, ?_, ?_⟩
  · rw [h2, List.length_drop]
    omega
  · rw [h2]
    exact List.Pairwise.sublist (List.drop_sublist _ _) hchron

/-- C2 witness: on a three-message transcript, asking for the 2 most recent
returns the last two messages in chronological order. -/
theorem C2_witness :
    (ChatDB.mk exMsgs 4).get_recent_messages "s1" 2
        = (((ChatDB.mk exMsgs 4).sessionRows "s1").reverse.take 2).reverse
    ∧ (ChatDB.mk exMsgs 4).get_recent_messages "s1" 2
        = [⟨some 2, "s1", "assistant", "¡Hola! ¿Qué tipo de zapatos buscas?", 1⟩,
           ⟨some 3, "s1", "user", "Para correr.", 2⟩] := by
  have h := C2_read_recent_window (ChatDB.mk exMsgs 4) "s1" 2 (by decide)
  exact ⟨h.1, by rw [h.2.1]; decide⟩

/-- C9: purging a session deletes exactly its messages (the returned count is
the number of rows of that session, 0 when there are none), afterwards the
full-history read of that session is empty, and purging again returns 0 and
leaves the state unchanged. -/
theorem C9_purge_session (db : ChatDB) (session_id : String) :
    (db.delete_session_history session_id).1
        = (db.sessionRows session_id).length
    ∧ ((db.delete_session_history session_id).2).sessionRows session_id = []
    ∧ ((db.delete_session_history session_id).2).get_session_history session_id none
        = []
    ∧ (((db.delete_session_history session_id).2).delete_session_history session_id).1
        = 0
    ∧ (((db.delete_session_history session_id).2).delete_session_history session_id).2
        = (db.delete_session_history session_id).2 := by
  have hrows : ((db.delete_session_history session_id).2).sessionRows session_id
      = [] := by
    unfold ChatDB.delete_session_history ChatDB.sessionRows
    simp [List.filter_filter]
  refine ⟨rfl, hrows, ?_, ?_, ?_⟩
  · unfold ChatDB.get_session_history
    rw [hrows]
    rfl
  · simp [ChatDB.delete_session_history, ChatDB.sessionRows, List.filter_filter]
  · simp [ChatDB.delete_session_history, ChatDB.sessionRows, List.filter_filter]

/-- C1: for every request whose user turn was appended (both fields
non-blank), if the generator then fails, `process_message` fails with the
single coarse `ChatServiceError` wrapping and the state is the one with the
user turn appended — role `user`, the request's text, no assistant row. -/
theorem C1_generation_failure_keeps_user_turn
    (db : ChatDB) (products : List Product) (gen : Gen)
    (request : ChatMessageRequest) (tsUser tsAssistant : Nat) (e : PyError)
    (hsid : isBlank request.session_id = false)
    (hmsg : isBlank request.message = false)
    (hgen : gen request.message products
        { messages := (db.save_message
            ⟨none, request.session_id, "user", request.message, tsUser⟩).2.get_recent_messages
              request.session_id 6 }
        = Except.error e) :
    process_message db products gen request tsUser tsAssistant
        = (Except.error (PyError.chatServiceError
             ("Error procesando el mensaje: " ++ e.text)),
           (db.save_message
             ⟨none, request.session_id, "user", request.message, tsUser⟩).2)
    ∧ (db.save_message
          ⟨none, request.session_id, "user", request.message, tsUser⟩).2.rows
        = db.rows
            ++ [⟨some db.nextId, request.session_id, "user", request.message, tsUser⟩] := by
  constructor
  · unfold process_message
    rw [make_user_ok request.session_id request.message tsUser hsid hmsg]
    simp only [hgen]
  · rfl

/-- C1 witness: a failing generator on a fresh store leaves exactly the user
turn persisted and surfaces the wrapped chat-service error. -/
theorem C1_witness :
    process_message (ChatDB.mk [] 1) []
        (fun _ _ _ => Except.error (PyError.chatServiceError "API timeout"))
        ⟨"s1", "Hello"⟩ 0 1
      = (Except.error (PyError.chatServiceError
            "Error procesando el mensaje: API timeout"),
         ChatDB.mk [⟨some 1, "s1", "user", "Hello", 0⟩] 2) := by
  have h := C1_generation_failure_keeps_user_turn (ChatDB.mk [] 1) []
    (fun _ _ _ => Except.error (PyError.chatServiceError "API timeout"))
    ⟨"s1", "Hello"⟩ 0 1 (PyError.chatServiceError "API timeout")
    (by decide) (by decide) rfl
  rw [h.1]
  rfl

/-- C3 counterexample: a blank message and a generator failure both surface
as the *same* coarse `ChatServiceError` kind from `process_message` (the
`try/except Exception` wraps the validation `ValueError` too), refuting the
claimed distinct coarse error kind per stage. -/
theorem C3_counterexample :
    process_message (ChatDB.mk [] 1) [] (fun _ _ _ => Except.ok "hola")
        ⟨"s1", "   "⟩ 0 1
      = (Except.error (PyError.chatServiceError
            "Error procesando el mensaje: El mensaje no puede estar vacío."),
         ChatDB.mk [] 1)
    ∧ (process_message (ChatDB.mk [] 1) []
        (fun _ _ _ => Except.error (PyError.chatServiceError "boom"))
        ⟨"s1", "Hello"⟩ 0 1).1
      = Except.error (PyError.chatServiceError
          "Error procesando el mensaje: boom") :=
  ⟨rfl, rfl⟩

/-- C3 (amended): a request with blank `session_id` or blank `message` is
rejected before any store write — the state is returned unchanged — but the
failure surfaces as the same coarse `ChatServiceError` kind used for every
stage, not as a distinct validation kind. -/
theorem C3_blank_rejected_before_store
    (db : ChatDB) (products : List Product) (gen : Gen)
    (request : ChatMessageRequest) (tsUser tsAssistant : Nat)
    (hblank : isBlank request.session_id = true ∨ isBlank request.message = true) :
    (∃ s, (process_message db products gen request tsUser tsAssistant).1
        = Except.error (PyError.chatServiceError s))
    ∧ (process_message db products gen request tsUser tsAssistant).2 = db := by
  obtain ⟨s, hs⟩ := make_user_blank request.session_id request.message tsUser hblank
  constructor
  · refine ⟨"Error procesando el mensaje: " ++ s, ?_⟩
    unfold process_message
    rw [hs]
    rfl
  · unfold process_message
    rw [hs]

/-- C3 witness: a blank session id is rejected with the store untouched. -/
theorem C3_witness :
    (process_message (ChatDB.mk [] 1) [] (fun _ _ _ => Except.ok "hola")
        ⟨" ", "Hello"⟩ 0 1).2 = ChatDB.mk [] 1
    ∧ (process_message (ChatDB.mk [] 1) [] (fun _ _ _ => Except.ok "hola")
        ⟨" ", "Hello"⟩ 0 1).1
      = Except.error (PyError.chatServiceError
          "Error procesando el mensaje: El session_id no puede estar vacío.") :=
  ⟨(C3_blank_rejected_before_store (ChatDB.mk [] 1) []
      (fun _ _ _ => Except.ok "hola") ⟨" ", "Hello"⟩ 0 1 (Or.inl (by decide))).2,
   rfl⟩

/-- C8 counterexample: `save` on a product whose identity is present but
matches no stored record does not upsert and returns no persisted record —
the never-added model's refresh raises — refuting "in both cases it returns
the persisted record". -/
theorem C8_counterexample :
    pNike.id.isSome = true
    ∧ ProductDB.save (ProductDB.mk [] 1) pNike
        = Except.error (PyError.invalidRequestError
            "Instance is not persistent within this Session") :=
  ⟨rfl, rfl⟩

/-- C8 (amended): for a valid product entity, `save` with a present nonzero
identity that matches a stored record overwrites that record's fields in
place and returns the persisted record with its identity; with identity
absent it assigns the next identity, inserts, and returns the record with the
new identity.  (A present identity without a matching record errors instead,
see the counterexample.) -/
theorem C8_upsert_amended (db : ProductDB) (product : Product)
    (hname : isBlank product.name = false) (hprice : 0 < product.price)
    (hstock : 0 ≤ product.stock) :
    (∀ i, product.id = some i → i ≠ 0 →
        (db.rows.find? (fun r => r.id == i)).isSome = true →
        db.save product
          = Except.ok ({ product with id := some i },
              ⟨db.rows.map (fun r => if r.id == i then writeRow i product else r),
               db.nextId⟩))
    ∧ (product.id = none →
        db.save product
          = Except.ok ({ product with id := some db.nextId },
              ⟨db.rows ++ [writeRow db.nextId product], db.nextId + 1⟩)) := by
  constructor
  · intro i hid hne hfind
    simp [ProductDB.save, hid, truthyId, hne, hfind,
      model_to_entity_writeRow i product hname hprice hstock]
  · intro hid
    simp [ProductDB.save, hid, truthyId,
      model_to_entity_writeRow db.nextId product hname hprice hstock]

/-- C8 witness: updating the stored product 1 with a full-field replacement
overwrites it in place; saving an identity-less product inserts it under the
next key; both return the persisted record with identity populated. -/
theorem C8_witness :
    ProductDB.save db8 pNikeMax
        = Except.ok ({ pNikeMax with id := some 1 },
            ⟨[writeRow 1 pNikeMax], 2⟩)
    ∧ ProductDB.save db8 pAdidas
        = Except.ok ({ pAdidas with id := some 2 },
            ⟨[writeRow 1 pNike, writeRow 2 pAdidas], 3⟩) := by
  constructor
  · have h := (C8_upsert_amended db8 pNikeMax (by decide) (by decide) (by decide)).1
      1 rfl (by decide) (by decide)
    rw [h]
    rfl
  · have h := (C8_upsert_amended db8 pAdidas (by decide) (by decide) (by decide)).2 rfl
    rw [h]
    rfl

end ECommerce
